import Mathlib

/-!
Shallow embedding of the COE premium predictor pipeline
(`src/streamlit_app.py`) and proofs of its specification claims.

Modelling conventions:
* pandas numeric values are modelled as `ℚ` (exact rationals); a cell that
  pandas would hold as `NaN`/`NA` is modelled as `none : Option ℚ`, and
  `fillna(0)` as `Option.getD · 0`.
* `pd.to_datetime` and `pd.to_numeric` are library parsers; they are taken as
  parameters (`toDatetime`, `toNumeric`) of the cleaning step, while the
  surrounding structure (comma stripping, whitespace trimming, coerce-errors
  semantics, row dropping, fillna) is embedded concretely.  Comma removal and
  whitespace stripping are written on the underlying character list, matching
  the semantics of `str.replace(",", "")` and `str.strip()`.
* `rolling(3, min_periods=1).std()` computes a sample standard deviation
  (`ddof=1`), whose value involves a square root; the aggregation kernel is
  taken as a parameter `stdFn : List ℚ → ℚ` applied to the non-NaN window
  values, while the window extraction and the NaN behaviour (NaN unless at
  least 2 observations, since a single observation has undefined sample std)
  are embedded concretely.
* the Streamlit script is straight-line stateful code; it is embedded as pure
  state passing (`resolveScenario` returns the unchanged history table
  explicitly where the script leaves `df` untouched), which also renders the
  pipeline's purity/determinism: equal inputs give equal outputs by
  construction.
-/

/-- A parsed timestamp as produced by `pd.to_datetime` (only the accessors
`dt.year`, `dt.month`, `dt.quarter` and the chronological order are used). -/
structure Ts where
  year : Int
  month : Int
  day : Int
deriving Repr, DecidableEq, Inhabited

/-- One raw CSV row, fields as (possibly comma-formatted) strings. -/
structure RawRow where
  month : String
  bidding_no : String
  vehicle_class : String
  quota : String
  bids_received : String
  bids_success : String
  premium : String
deriving Repr, DecidableEq, Inhabited

/-- A row after the parse-and-clean block (lines 36-47). -/
structure CleanRow where
  month : Ts
  bidding_no : ℚ
  vehicle_class : String
  quota : ℚ
  bids_received : ℚ
  bids_success : ℚ
  premium : ℚ
deriving Repr, DecidableEq, Inhabited

/-- `s.str.replace(",", "", regex=False).str.strip()` (lines 41-45): remove
every comma, then strip leading and trailing whitespace. -/
def stripNum (s : String) : String :=
  List.asString
    ((((s.data.filter (fun ch => ch ≠ ',')).dropWhile Char.isWhitespace).reverse.dropWhile
        Char.isWhitespace).reverse)

/-- `pd.to_numeric(..., errors="coerce")` followed by `fillna(0)`
(lines 46-47), for one cell. -/
def coerceNum (toNumeric : String → Option ℚ) (s : String) : ℚ :=
  (toNumeric (stripNum s)).getD 0

/-- One row through the parse-and-clean block: the timestamp is parsed with
`errors="coerce"` and the row is dropped (`dropna(subset=["month"])`) when it
does not parse; the five numeric columns are comma/whitespace-stripped,
coerced, and defaulted to 0 (lines 36-47). -/
def cleanRow (toDatetime : String → Option Ts) (toNumeric : String → Option ℚ)
    (r : RawRow) : Option CleanRow :=
  (toDatetime r.month).map (fun ts =>
    { month := ts
      bidding_no := coerceNum toNumeric r.bidding_no
      vehicle_class := r.vehicle_class
      quota := coerceNum toNumeric r.quota
      bids_received := coerceNum toNumeric r.bids_received
      bids_success := coerceNum toNumeric r.bids_success
      premium := coerceNum toNumeric r.premium })

/-- The whole parse-and-clean block over the table. -/
def cleanRows (toDatetime : String → Option Ts) (toNumeric : String → Option ℚ)
    (t : List RawRow) : List CleanRow :=
  t.filterMap (cleanRow toDatetime toNumeric)

/-- `.replace(0, pd.NA)` on a numeric cell (lines 54, 57). -/
def naIfZero (q : ℚ) : Option ℚ :=
  if q = 0 then none else some q

/-- An engineered record: all cleaned fields plus the derived feature columns
(lines 54-78).  `premium_roll_mean_3` stays an `Option` because it is absent
from the `fillna` list on line 77, so its NaN values are never filled. -/
structure EngRow where
  month : Ts
  bidding_no : ℚ
  vehicle_class : String
  quota : ℚ
  bids_received : ℚ
  bids_success : ℚ
  premium : ℚ
  demand_supply_ratio : ℚ
  success_rate : ℚ
  year : Int
  month_num : Int
  quarter : Int
  premium_lag1 : ℚ
  premium_lag2 : ℚ
  premium_lag3 : ℚ
  premium_roll_mean_3 : Option ℚ
  premium_roll_std_3 : ℚ
deriving Repr, DecidableEq, Inhabited

/-- `groupby(...)["premium"].shift(k)` on one group's column: `k` leading
NaNs, then the column's values, truncated back to the column's length. -/
def shiftK (k : Nat) (ps : List ℚ) : List (Option ℚ) :=
  (List.replicate k none ++ ps.map some).take ps.length

/-- The `rolling(3)` window ending at position `i`: elements
`max(i-2,0) .. i` of the column (Nat subtraction truncates at 0). -/
def window3 (s : List (Option ℚ)) (i : Nat) : List (Option ℚ) :=
  (s.take (i + 1)).drop (i - 2)

/-- The non-NaN observations of a window (pandas skips NaNs inside
rolling windows). -/
def obs (w : List (Option ℚ)) : List ℚ :=
  w.filterMap id

/-- `rolling(3, min_periods=1).mean()` (lines 68-71): the mean of the non-NaN
values in the window, NaN when there are none. -/
def rollMean3 (s : List (Option ℚ)) : List (Option ℚ) :=
  (List.range s.length).map (fun i =>
    let vals := obs (window3 s i)
    if 1 ≤ vals.length then some (vals.sum / (vals.length : ℚ)) else none)

/-- `rolling(3, min_periods=1).std()` (lines 72-75): the sample standard
deviation (`ddof=1`) of the non-NaN values in the window, which is NaN unless
there are at least 2 of them; the numeric kernel is the parameter `stdFn`. -/
def rollStd3 (stdFn : List ℚ → ℚ) (s : List (Option ℚ)) : List (Option ℚ) :=
  (List.range s.length).map (fun i =>
    let vals := obs (window3 s i)
    if 2 ≤ vals.length then some (stdFn vals) else none)

/-- Assemble one engineered record from a cleaned row and its lag/rolling
cells (lines 54-78).  The ratio columns follow
`bids_received / quota.replace(0, NA)` then `fillna(0)` (lines 54-58); the
date parts follow `dt.year` / `dt.month` / `dt.quarter` (lines 60-62); the
lag columns and `premium_roll_std_3` are filled with 0 (lines 77-78) while
`premium_roll_mean_3` is not in that list and keeps its NaN. -/
def mkEng (r : CleanRow) (l1 l2 l3 rm rs : Option ℚ) : EngRow :=
  { month := r.month
    bidding_no := r.bidding_no
    vehicle_class := r.vehicle_class
    quota := r.quota
    bids_received := r.bids_received
    bids_success := r.bids_success
    premium := r.premium
    demand_supply_ratio := ((naIfZero r.quota).map (fun d => r.bids_received / d)).getD 0
    success_rate := ((naIfZero r.bids_received).map (fun d => r.bids_success / d)).getD 0
    year := r.month.year
    month_num := r.month.month
    quarter := (r.month.month + 2) / 3
    premium_lag1 := l1.getD 0
    premium_lag2 := l2.getD 0
    premium_lag3 := l3.getD 0
    premium_roll_mean_3 := rm
    premium_roll_std_3 := rs.getD 0 }

/-- The feature-engineering block for one category's (already ordered)
sub-sequence of rows: lags shift the premium column within the group
(lines 64-66), the rolling statistics run over the group's `premium_lag1`
column (lines 68-75), and the `fillna` of lines 77-78 is applied in `mkEng`. -/
def engineerClass (stdFn : List ℚ → ℚ) (rows : List CleanRow) : List EngRow :=
  let ps := rows.map (·.premium)
  let l1 := shiftK 1 ps
  let rm := rollMean3 l1
  let rs := rollStd3 stdFn l1
  (List.range rows.length).map (fun i =>
    mkEng (rows.getD i default) (l1.getD i none) ((shiftK 2 ps).getD i none)
      ((shiftK 3 ps).getD i none) (rm.getD i none) (rs.getD i none))

/-- Lexicographic sort key of a timestamp (chronological order). -/
def tsKey (t : Ts) : Int ×ₗ (Int ×ₗ Int) :=
  toLex (t.year, toLex (t.month, t.day))

/-- Sort key of `df.sort_values(["vehicle_class", "month", "bidding_no"])`
(line 49). -/
def rowKey (r : CleanRow) : String ×ₗ ((Int ×ₗ (Int ×ₗ Int)) ×ₗ ℚ) :=
  toLex (r.vehicle_class, toLex (tsKey r.month, r.bidding_no))

/-- The comparison underlying line 49's sort. -/
def rowLE (a b : CleanRow) : Prop :=
  rowKey a ≤ rowKey b

instance : DecidableRel rowLE := fun a b =>
  inferInstanceAs (Decidable (rowKey a ≤ rowKey b))

instance : IsTotal CleanRow rowLE :=
  ⟨fun a b => le_total (rowKey a) (rowKey b)⟩

instance : IsTrans CleanRow rowLE :=
  ⟨fun _ _ _ => le_trans⟩

/-- `df.sort_values(["vehicle_class", "month", "bidding_no"])` (line 49). -/
def sortRows (t : List CleanRow) : List CleanRow :=
  List.insertionSort rowLE t

/-- One category's sub-sequence of the sorted table, in the order in which
`groupby("vehicle_class")` processes it (groups are contiguous and in
(`month`, `bidding_no`) order after line 49's sort). -/
def classRows (c : String) (t : List CleanRow) : List CleanRow :=
  (sortRows t).filter (fun r => r.vehicle_class == c)

/-- The engineered records of one category, as produced by the
feature-engineering block (lines 54-78) for that category's group. -/
def classFeatures (stdFn : List ℚ → ℚ) (c : String) (t : List CleanRow) : List EngRow :=
  engineerClass stdFn (classRows c t)

/-- The category keys in the order the sorted table presents them. -/
def classKeys (t : List CleanRow) : List String :=
  ((sortRows t).map (·.vehicle_class)).dedup

/-- The whole engineered table: the sorted table is a concatenation of its
per-category contiguous groups, each engineered independently. -/
def buildFeatures (stdFn : List ℚ → ℚ) (t : List CleanRow) : List EngRow :=
  (classKeys t).flatMap (fun c => classFeatures stdFn c t)

/-- Within-category chronological comparison: (`month`, `bidding_no`)
lexicographically ascending. -/
def subLE (a b : CleanRow) : Prop :=
  toLex (tsKey a.month, a.bidding_no) ≤ toLex (tsKey b.month, b.bidding_no)

instance : DecidableRel subLE := fun a b =>
  inferInstanceAs (Decidable (toLex (tsKey a.month, a.bidding_no)
    ≤ toLex (tsKey b.month, b.bidding_no)))

/-- The model's feature row: `latest[expected_cols]` (line 173), one value
per expected column. -/
structure FeatureRow where
  quota : ℚ
  bids_success : ℚ
  bids_received : ℚ
  demand_supply_ratio : ℚ
  success_rate : ℚ
  year : Int
  month_num : Int
  quarter : Int
  premium_lag1 : ℚ
  premium_lag2 : ℚ
  premium_lag3 : ℚ
  premium_roll_mean_3 : Option ℚ
  premium_roll_std_3 : ℚ
  bidding_no : ℚ
  vehicle_class : String
deriving Repr, DecidableEq, Inhabited

/-- `expected_cols` (lines 80-87), in source order. -/
def expected_cols : List String :=
  ["quota", "bids_success", "bids_received",
   "demand_supply_ratio", "success_rate",
   "year", "month_num", "quarter",
   "premium_lag1", "premium_lag2", "premium_lag3",
   "premium_roll_mean_3", "premium_roll_std_3",
   "bidding_no", "vehicle_class"]

/-- A cell value of the model row (numeric, date part, NaN, or category). -/
inductive FVal
  | num (q : ℚ)
  | int (z : Int)
  | nan
  | str (s : String)
deriving Repr, DecidableEq

/-- The feature row as the ordered (column, value) list the model receives:
`latest[expected_cols]` projects these fields in exactly this order. -/
def rowEntries (r : FeatureRow) : List (String × FVal) :=
  [("quota", FVal.num r.quota),
   ("bids_success", FVal.num r.bids_success),
   ("bids_received", FVal.num r.bids_received),
   ("demand_supply_ratio", FVal.num r.demand_supply_ratio),
   ("success_rate", FVal.num r.success_rate),
   ("year", FVal.int r.year),
   ("month_num", FVal.int r.month_num),
   ("quarter", FVal.int r.quarter),
   ("premium_lag1", FVal.num r.premium_lag1),
   ("premium_lag2", FVal.num r.premium_lag2),
   ("premium_lag3", FVal.num r.premium_lag3),
   ("premium_roll_mean_3", (r.premium_roll_mean_3).elim FVal.nan FVal.num),
   ("premium_roll_std_3", FVal.num r.premium_roll_std_3),
   ("bidding_no", FVal.num r.bidding_no),
   ("vehicle_class", FVal.str r.vehicle_class)]

/-- `X_latest = latest[expected_cols].copy()` (line 173): project the latest
engineered record onto the expected columns. -/
def selectExpected (e : EngRow) : FeatureRow :=
  { quota := e.quota
    bids_success := e.bids_success
    bids_received := e.bids_received
    demand_supply_ratio := e.demand_supply_ratio
    success_rate := e.success_rate
    year := e.year
    month_num := e.month_num
    quarter := e.quarter
    premium_lag1 := e.premium_lag1
    premium_lag2 := e.premium_lag2
    premium_lag3 := e.premium_lag3
    premium_roll_mean_3 := e.premium_roll_mean_3
    premium_roll_std_3 := e.premium_roll_std_3
    bidding_no := e.bidding_no
    vehicle_class := e.vehicle_class }

/-- The scenario inputs (the four number inputs of lines 149-153; each always
carries a value, defaulting to the latest record's). -/
structure Overrides where
  quota : ℚ
  bids_received : ℚ
  bids_success : ℚ
  bidding_no : ℚ
deriving Repr, DecidableEq, Inhabited

/-- The scenario resolver (lines 173-183): copy the latest record's expected
columns, overwrite the four raw quantities with the scenario inputs, and
recompute the two ratio features from the overridden values. -/
def resolve (latest : EngRow) (ov : Overrides) : FeatureRow :=
  { selectExpected latest with
    quota := ov.quota
    bids_received := ov.bids_received
    bids_success := ov.bids_success
    bidding_no := ov.bidding_no
    demand_supply_ratio := if ov.quota ≠ 0 then ov.bids_received / ov.quota else 0
    success_rate := if ov.bids_received ≠ 0 then ov.bids_success / ov.bids_received else 0 }

/-- Sort key of `sort_values(["month", "bidding_no"])` on engineered rows
(line 115). -/
def engKey (e : EngRow) : (Int ×ₗ (Int ×ₗ Int)) ×ₗ ℚ :=
  toLex (tsKey e.month, e.bidding_no)

/-- The comparison underlying line 115's sort. -/
def engLE (a b : EngRow) : Prop :=
  engKey a ≤ engKey b

instance : DecidableRel engLE := fun a b =>
  inferInstanceAs (Decidable (engKey a ≤ engKey b))

/-- `df[df["vehicle_class"] == vc].sort_values(["month", "bidding_no"]).tail(1)`
(line 115): the latest engineered record of a category. -/
def latestRecord (t : List EngRow) (c : String) : Option EngRow :=
  (List.insertionSort engLE (t.filter (fun r => r.vehicle_class == c))).getLast?

/-- Resolving a scenario against the engineered history, as explicit state
passing: the script reads `latest` out of the table and builds `X_latest`
from a copy (line 173), leaving the table untouched, so the state component
is returned unchanged. -/
def resolveScenario (t : List EngRow) (c : String) (ov : Overrides) :
    List EngRow × Option FeatureRow :=
  (t, (latestRecord t c).map (fun l => resolve l ov))

/-- The user-visible messages of the scenario block. -/
inductive Warning
  | successExceedsReceived
  | zeroQuota
deriving Repr, DecidableEq

/-- Outcome of the predict button (lines 189-199): not clicked, rejected by
the validation guard (`st.error` + `st.stop`, lines 190-192), or the row
handed to `model.predict` (line 195). -/
inductive PredictOutcome
  | notRequested
  | rejected
  | predicted (row : FeatureRow)
deriving Repr, DecidableEq

/-- What one pass of the scenario block produces. -/
structure StepResult where
  warnings : List Warning
  shownRow : FeatureRow
  outcome : PredictOutcome
deriving Repr, DecidableEq

/-- One pass of the scenario block (lines 155-199): the validation warning of
lines 156-157 and the quota warning of lines 158-159, the model input row
built and displayed unconditionally (lines 173-186), and the predict guard of
lines 189-192 which stops before `model.predict` exactly when the overridden
`bids_success` exceeds `bids_received`. -/
def scenarioStep (latest : EngRow) (ov : Overrides) (clicked : Bool) : StepResult :=
  { warnings :=
      (if ov.bids_success > ov.bids_received then [Warning.successExceedsReceived] else []) ++
      (if ov.quota = 0 then [Warning.zeroQuota] else [])
    shownRow := resolve latest ov
    outcome :=
      if clicked then
        if ov.bids_success > ov.bids_received then PredictOutcome.rejected
        else PredictOutcome.predicted (resolve latest ov)
      else PredictOutcome.notRequested }

/-- A trivial std kernel used to instantiate `stdFn` in concrete checks
(the claims settled here never depend on the std kernel's values). -/
def stdFn0 : List ℚ → ℚ := fun _ => 0

/-- Concrete fixture: first record of category A. -/
def r0 : CleanRow :=
  { month := { year := 2024, month := 1, day := 1 }, bidding_no := 1, vehicle_class := "A",
    quota := 10, bids_received := 20, bids_success := 5, premium := 100 }

/-- Concrete fixture: second record of category A. -/
def r1 : CleanRow :=
  { r0 with month := { year := 2024, month := 2, day := 1 }, premium := 110 }

/-- Concrete fixture: third record of category A. -/
def r2 : CleanRow :=
  { r0 with month := { year := 2024, month := 3, day := 1 }, premium := 105 }

/-- Concrete fixture: fourth record of category A. -/
def r3 : CleanRow :=
  { r0 with month := { year := 2024, month := 4, day := 1 }, premium := 120 }

/-- Concrete fixture: a 4-record category-A table. -/
def tW : List CleanRow := [r0, r1, r2, r3]

/-- Concrete fixture: a 2-record category-A table. -/
def rows2 : List CleanRow := [r0, r1]

/-- Concrete fixture: `rows2` with the premium of position 1 changed. -/
def rows2x : List CleanRow := [r0, { r1 with premium := 999 }]

/-- Concrete fixture: a latest engineered record. -/
def latestW : EngRow :=
  { month := { year := 2024, month := 4, day := 1 }, bidding_no := 1, vehicle_class := "A",
    quota := 10, bids_received := 20, bids_success := 5, premium := 120,
    demand_supply_ratio := 2, success_rate := 1/4, year := 2024, month_num := 4, quarter := 2,
    premium_lag1 := 105, premium_lag2 := 110, premium_lag3 := 100,
    premium_roll_mean_3 := some 105, premium_roll_std_3 := 5 }

/-- Concrete fixture: overrides with zero quota and `bids_success` above
`bids_received`. -/
def ovW : Overrides :=
  { quota := 0, bids_received := 50, bids_success := 80, bidding_no := 2 }

/-- Concrete fixture: a raw row with an unparseable timestamp and an
unparseable premium. -/
def rW : RawRow :=
  { month := "garbage", bidding_no := "1,234", vehicle_class := "A",
    quota := "10", bids_received := " 20 ", bids_success := "5", premium := "1,00x" }

/-- Concrete fixture: `rW` with a parseable timestamp. -/
def rWgood : RawRow :=
  { rW with month := "2024-01" }

/-- Concrete fixture: the cleaned form of `rWgood`. -/
def cwGood : CleanRow :=
  { month := { year := 2024, month := 1, day := 1 }, bidding_no := 1234, vehicle_class := "A",
    quota := 10, bids_received := 20, bids_success := 5, premium := 0 }

/-- Concrete fixture: a date parser recognising only "2024-01". -/
def tdW : String → Option Ts :=
  fun s => if s = "2024-01" then some { year := 2024, month := 1, day := 1 } else none

/-- Concrete fixture: a numeric parser recognising a few plain digit strings. -/
def tnW : String → Option ℚ :=
  fun s =>
    if s = "1234" then some 1234
    else if s = "10" then some 10
    else if s = "20" then some 20
    else if s = "5" then some 5
    else none

theorem length_shiftK (k : Nat) (ps : List ℚ) : (shiftK k ps).length = ps.length := by
  simp [shiftK]

theorem length_rollMean3 (s : List (Option ℚ)) : (rollMean3 s).length = s.length := by
  simp [rollMean3]

theorem length_rollStd3 (stdFn : List ℚ → ℚ) (s : List (Option ℚ)) :
    (rollStd3 stdFn s).length = s.length := by
  simp [rollStd3]

theorem length_engineerClass (stdFn : List ℚ → ℚ) (rows : List CleanRow) :
    (engineerClass stdFn rows).length = rows.length := by
  simp [engineerClass]

/-- `shift(k)` puts NaN in the first `k` cells and the value from `k`
positions back elsewhere. -/
theorem shiftK_getD (k : Nat) (ps : List ℚ) (i : Nat) (hi : i < ps.length) :
    (shiftK k ps).getD i none = if k ≤ i then some (ps.getD (i - k) 0) else none := by
  have hlen : i < (shiftK k ps).length := by rw [length_shiftK]; exact hi
  rw [List.getD_eq_getElem _ _ hlen]
  unfold shiftK
  by_cases hk : k ≤ i
  · have hik : i - k < ps.length := lt_of_le_of_lt (Nat.sub_le i k) hi
    rw [List.getElem_take]
    rw [List.getElem_append_right (by simpa using hk)]
    simp only [List.length_replicate, List.getElem_map]
    rw [if_pos hk, List.getD_eq_getElem _ _ hik]
  · have hik : i < (List.replicate k (none : Option ℚ)).length := by
      simpa using Nat.lt_of_not_le hk
    rw [List.getElem_take, List.getElem_append_left hik]
    simp [List.getElem_replicate, hk]

theorem engineerClass_getD (stdFn : List ℚ → ℚ) (rows : List CleanRow) (i : Nat)
    (hi : i < rows.length) :
    (engineerClass stdFn rows).getD i default =
      mkEng (rows.getD i default)
        ((shiftK 1 (rows.map (·.premium))).getD i none)
        ((shiftK 2 (rows.map (·.premium))).getD i none)
        ((shiftK 3 (rows.map (·.premium))).getD i none)
        ((rollMean3 (shiftK 1 (rows.map (·.premium)))).getD i none)
        ((rollStd3 stdFn (shiftK 1 (rows.map (·.premium)))).getD i none) := by
  have hlen : i < (engineerClass stdFn rows).length := by
    rw [length_engineerClass]; exact hi
  rw [List.getD_eq_getElem _ _ hlen]
  unfold engineerClass
  simp [hi]

theorem premium_map_getD (rows : List CleanRow) (j : Nat) (h : j < rows.length) :
    (rows.map (·.premium)).getD j 0 = (rows.getD j default).premium := by
  have h' : j < (rows.map (·.premium)).length := by simpa using h
  rw [List.getD_eq_getElem _ _ h', List.getD_eq_getElem _ _ h, List.getElem_map]

theorem rollMean3_getD (s : List (Option ℚ)) (i : Nat) (hi : i < s.length) :
    (rollMean3 s).getD i none =
      (if 1 ≤ (obs (window3 s i)).length
       then some ((obs (window3 s i)).sum / ((obs (window3 s i)).length : ℚ))
       else none) := by
  have hlen : i < (rollMean3 s).length := by rw [length_rollMean3]; exact hi
  rw [List.getD_eq_getElem _ _ hlen]
  unfold rollMean3
  simp [hi]

theorem rollStd3_getD (stdFn : List ℚ → ℚ) (s : List (Option ℚ)) (i : Nat)
    (hi : i < s.length) :
    (rollStd3 stdFn s).getD i none =
      (if 2 ≤ (obs (window3 s i)).length
       then some (stdFn (obs (window3 s i)))
       else none) := by
  have hlen : i < (rollStd3 stdFn s).length := by rw [length_rollStd3]; exact hi
  rw [List.getD_eq_getElem _ _ hlen]
  unfold rollStd3
  simp [hi]

/-- The rolling window ending at `i` only reads positions `≤ i`. -/
theorem window3_congr (s s' : List (Option ℚ)) (i : Nat) (hi : i < s.length)
    (hi' : i < s'.length) (h : ∀ j, j ≤ i → s.getD j none = s'.getD j none) :
    window3 s i = window3 s' i := by
  unfold window3
  have htake : s.take (i + 1) = s'.take (i + 1) := by
    apply List.ext_getElem
    · rw [List.length_take, List.length_take, Nat.min_eq_left (Nat.succ_le_of_lt hi),
        Nat.min_eq_left (Nat.succ_le_of_lt hi')]
    · intro j h1 h2
      have hj : j ≤ i := by
        rw [List.length_take, Nat.min_eq_left (Nat.succ_le_of_lt hi)] at h1
        omega
      have hjs : j < s.length := by omega
      have hjs' : j < s'.length := by omega
      have hh := h j hj
      rw [List.getD_eq_getElem _ _ hjs, List.getD_eq_getElem _ _ hjs'] at hh
      rw [List.getElem_take, List.getElem_take]
      exact hh
  rw [htake]

/-- Two premium columns that agree strictly below `i` have equal `lag1`
columns at every position `≤ i`. -/
theorem shiftK_one_congr (rows rows' : List CleanRow) (i : Nat) (hi : i < rows.length)
    (hi' : i < rows'.length)
    (hprem : ∀ j, j < i → (rows.getD j default).premium = (rows'.getD j default).premium) :
    ∀ j, j ≤ i → (shiftK 1 (rows.map (·.premium))).getD j none
      = (shiftK 1 (rows'.map (·.premium))).getD j none := by
  intro j hj
  have hjr : j < rows.length := lt_of_le_of_lt hj hi
  have hjr' : j < rows'.length := lt_of_le_of_lt hj hi'
  rw [shiftK_getD _ _ _ (by simpa using hjr), shiftK_getD _ _ _ (by simpa using hjr')]
  by_cases h1 : 1 ≤ j
  · rw [if_pos h1, if_pos h1]
    have hr : j - 1 < rows.length := by omega
    have hr' : j - 1 < rows'.length := by omega
    rw [premium_map_getD _ _ hr, premium_map_getD _ _ hr', hprem _ (by omega)]
  · rw [if_neg h1, if_neg h1]

/-- Lag semantics of the engineered table of one group. -/
theorem engineerClass_lag (stdFn : List ℚ → ℚ) (rows : List CleanRow) (i : Nat)
    (hi : i < rows.length) :
    (((engineerClass stdFn rows).getD i default).premium_lag1
        = if 1 ≤ i then (rows.getD (i - 1) default).premium else 0) ∧
    (((engineerClass stdFn rows).getD i default).premium_lag2
        = if 2 ≤ i then (rows.getD (i - 2) default).premium else 0) ∧
    (((engineerClass stdFn rows).getD i default).premium_lag3
        = if 3 ≤ i then (rows.getD (i - 3) default).premium else 0) := by
  have hm : i < (rows.map (·.premium)).length := by simpa using hi
  rw [engineerClass_getD _ _ _ hi]
  simp only [mkEng]
  refine ⟨?_, ?_, ?_⟩
  · rw [shiftK_getD _ _ _ hm]
    by_cases h1 : 1 ≤ i
    · rw [if_pos h1, if_pos h1, Option.getD_some, premium_map_getD _ _ (by omega)]
    · rw [if_neg h1, if_neg h1, Option.getD_none]
  · rw [shiftK_getD _ _ _ hm]
    by_cases h2 : 2 ≤ i
    · rw [if_pos h2, if_pos h2, Option.getD_some, premium_map_getD _ _ (by omega)]
    · rw [if_neg h2, if_neg h2, Option.getD_none]
  · rw [shiftK_getD _ _ _ hm]
    by_cases h3 : 3 ≤ i
    · rw [if_pos h3, if_pos h3, Option.getD_some, premium_map_getD _ _ (by omega)]
    · rw [if_neg h3, if_neg h3, Option.getD_none]

/-- Each category's sub-sequence comes out of line 49's sort ordered by
(`month`, `bidding_no`) ascending. -/
theorem classRows_sorted (c : String) (t : List CleanRow) :
    List.Sorted subLE (classRows c t) := by
  have hs : List.Sorted rowLE (sortRows t) := List.sorted_insertionSort rowLE t
  have hf : List.Pairwise rowLE (classRows c t) := hs.filter _
  refine hf.imp_of_mem ?_
  intro a b ha hb hab
  have hac : a.vehicle_class = c := by
    have := (List.mem_filter.mp ha).2
    exact beq_iff_eq.mp this
  have hbc : b.vehicle_class = c := by
    have := (List.mem_filter.mp hb).2
    exact beq_iff_eq.mp this
  unfold rowLE rowKey at hab
  rcases (Prod.Lex.le_iff _ _).mp hab with hlt | ⟨_, hle⟩
  · rw [hac, hbc] at hlt
    exact absurd hlt (lt_irrefl c)
  · exact hle

/-- Rows of the same category compare under line 49's full sort key exactly
as they compare under the within-category (`month`, `bidding_no`) key. -/
theorem rowLE_of_same_class (a b : CleanRow) (h : a.vehicle_class = b.vehicle_class)
    (h2 : subLE a b) : rowLE a b :=
  (Prod.Lex.le_iff (a.vehicle_class, toLex (tsKey a.month, a.bidding_no))
    (b.vehicle_class, toLex (tsKey b.month, b.bidding_no))).mpr (Or.inr ⟨h, h2⟩)

theorem sorted_tW : List.Sorted rowLE tW := by
  have h01 : rowLE r0 r1 := rowLE_of_same_class r0 r1 rfl (by decide)
  have h02 : rowLE r0 r2 := rowLE_of_same_class r0 r2 rfl (by decide)
  have h03 : rowLE r0 r3 := rowLE_of_same_class r0 r3 rfl (by decide)
  have h12 : rowLE r1 r2 := rowLE_of_same_class r1 r2 rfl (by decide)
  have h13 : rowLE r1 r3 := rowLE_of_same_class r1 r3 rfl (by decide)
  have h23 : rowLE r2 r3 := rowLE_of_same_class r2 r3 rfl (by decide)
  unfold tW
  refine List.pairwise_cons.mpr ⟨?_, List.pairwise_cons.mpr ⟨?_, List.pairwise_cons.mpr
    ⟨?_, List.pairwise_singleton _ _⟩⟩⟩
  · intro x hx
    simp only [List.mem_cons, List.not_mem_nil, or_false] at hx
    rcases hx with rfl | rfl | rfl
    exacts [h01, h02, h03]
  · intro x hx
    simp only [List.mem_cons, List.not_mem_nil, or_false] at hx
    rcases hx with rfl | rfl
    exacts [h12, h13]
  · intro x hx
    simp only [List.mem_cons, List.not_mem_nil, or_false] at hx
    rcases hx with rfl
    exact h23

theorem sortRows_tW : sortRows tW = tW :=
  sorted_tW.insertionSort_eq

theorem classRows_A_tW : classRows "A" tW = tW := by
  unfold classRows
  rw [sortRows_tW]
  decide

/-- C1 (code bug): for a category with exactly one record the code produces
premium_lag1 = premium_lag2 = premium_lag3 = 0 and premium_roll_std_3 = 0 as
the claim states, but premium_roll_mean_3 is left NaN, not 0: the fillna list
on line 77 names the three lag columns and premium_roll_std_3 only, so the
undefined rolling-mean cell is never filled with 0, contradicting the claim
(and spec §4.1/§8, which promise premium_roll_mean_3 = 0 and that every
undefined lag/rolling value is filled with 0). -/
theorem C1_single_record_roll_mean_nan :
    (classFeatures stdFn0 "A" [r0]).length = 1 ∧
    ((classFeatures stdFn0 "A" [r0]).getD 0 default).premium_lag1 = 0 ∧
    ((classFeatures stdFn0 "A" [r0]).getD 0 default).premium_lag2 = 0 ∧
    ((classFeatures stdFn0 "A" [r0]).getD 0 default).premium_lag3 = 0 ∧
    ((classFeatures stdFn0 "A" [r0]).getD 0 default).premium_roll_std_3 = 0 ∧
    ((classFeatures stdFn0 "A" [r0]).getD 0 default).premium_roll_mean_3 = none ∧
    ¬ ((classFeatures stdFn0 "A" [r0]).getD 0 default).premium_roll_mean_3 = some 0 := by
  decide

/-- C2: the rolling mean and rolling std at position `i` of a category's
sub-sequence are a function only of the premium_lag1 values at positions
`≤ i` (first conjunct), and those lag1 values are themselves determined by
the premiums at positions strictly below `i` (second conjunct) — so the
rolling statistics never incorporate the premium of position `i` itself. -/
theorem C2_rolling_no_leakage (stdFn : List ℚ → ℚ) (rows rows' : List CleanRow) (i : Nat)
    (hi : i < rows.length) (hi' : i < rows'.length) :
    ((∀ j, j ≤ i → (shiftK 1 (rows.map (·.premium))).getD j none
        = (shiftK 1 (rows'.map (·.premium))).getD j none) →
      ((engineerClass stdFn rows).getD i default).premium_roll_mean_3
          = ((engineerClass stdFn rows').getD i default).premium_roll_mean_3 ∧
      ((engineerClass stdFn rows).getD i default).premium_roll_std_3
          = ((engineerClass stdFn rows').getD i default).premium_roll_std_3) ∧
    ((∀ j, j < i → (rows.getD j default).premium = (rows'.getD j default).premium) →
      ∀ j, j ≤ i → (shiftK 1 (rows.map (·.premium))).getD j none
        = (shiftK 1 (rows'.map (·.premium))).getD j none) := by
  constructor
  · intro hlag
    have hm : i < (shiftK 1 (rows.map (·.premium))).length := by
      rw [length_shiftK]; simpa using hi
    have hm' : i < (shiftK 1 (rows'.map (·.premium))).length := by
      rw [length_shiftK]; simpa using hi'
    have hw : window3 (shiftK 1 (rows.map (·.premium))) i
        = window3 (shiftK 1 (rows'.map (·.premium))) i :=
      window3_congr _ _ i hm hm' hlag
    rw [engineerClass_getD _ _ _ hi, engineerClass_getD _ _ _ hi']
    simp only [mkEng]
    constructor
    · rw [rollMean3_getD _ _ hm, rollMean3_getD _ _ hm', hw]
    · rw [rollStd3_getD _ _ _ hm, rollStd3_getD _ _ _ hm', hw]
  · exact shiftK_one_congr rows rows' i hi hi'

theorem C2_rolling_no_leakage_witness :
    1 < rows2.length ∧ 1 < rows2x.length ∧
    ((engineerClass stdFn0 rows2).getD 1 default).premium_roll_mean_3
      = ((engineerClass stdFn0 rows2x).getD 1 default).premium_roll_mean_3 ∧
    ((engineerClass stdFn0 rows2).getD 1 default).premium_roll_std_3
      = ((engineerClass stdFn0 rows2x).getD 1 default).premium_roll_std_3 := by
  refine ⟨by decide, by decide, ?_⟩
  have h := C2_rolling_no_leakage stdFn0 rows2 rows2x 1 (by decide) (by decide)
  refine h.1 (h.2 (fun j hj => ?_))
  have hj0 : j = 0 := by omega
  subst hj0
  rfl

/-- C3: each category's sub-sequence is ordered by (timestamp, round number)
ascending, and within it premium_lag1/2/3 at position `i` equal the premium
at positions `i-1`, `i-2`, `i-3` of the same category, or 0 when no such
prior record exists. -/
theorem C3_lag_features (stdFn : List ℚ → ℚ) (t : List CleanRow) (c : String) (i : Nat)
    (hi : i < (classRows c t).length) :
    List.Sorted subLE (classRows c t) ∧
    (((classFeatures stdFn c t).getD i default).premium_lag1
        = if 1 ≤ i then ((classRows c t).getD (i - 1) default).premium else 0) ∧
    (((classFeatures stdFn c t).getD i default).premium_lag2
        = if 2 ≤ i then ((classRows c t).getD (i - 2) default).premium else 0) ∧
    (((classFeatures stdFn c t).getD i default).premium_lag3
        = if 3 ≤ i then ((classRows c t).getD (i - 3) default).premium else 0) :=
  ⟨classRows_sorted c t, engineerClass_lag stdFn (classRows c t) i hi⟩

theorem C3_lag_features_witness :
    3 < (classRows "A" tW).length ∧
    (List.Sorted subLE (classRows "A" tW) ∧
     (((classFeatures stdFn0 "A" tW).getD 3 default).premium_lag1
         = if 1 ≤ 3 then ((classRows "A" tW).getD (3 - 1) default).premium else 0) ∧
     (((classFeatures stdFn0 "A" tW).getD 3 default).premium_lag2
         = if 2 ≤ 3 then ((classRows "A" tW).getD (3 - 2) default).premium else 0) ∧
     (((classFeatures stdFn0 "A" tW).getD 3 default).premium_lag3
         = if 3 ≤ 3 then ((classRows "A" tW).getD (3 - 3) default).premium else 0)) ∧
    ((classFeatures stdFn0 "A" tW).getD 3 default).premium_lag1 = 105 ∧
    ((classFeatures stdFn0 "A" tW).getD 3 default).premium_lag2 = 110 ∧
    ((classFeatures stdFn0 "A" tW).getD 3 default).premium_lag3 = 100 := by
  have hlen : 3 < (classRows "A" tW).length := by rw [classRows_A_tW]; decide
  have h := C3_lag_features stdFn0 tW "A" 3 hlen
  refine ⟨hlen, h, ?_, ?_, ?_⟩
  · rw [h.2.1, if_pos (by decide), classRows_A_tW]; decide
  · rw [h.2.2.1, if_pos (by decide), classRows_A_tW]; decide
  · rw [h.2.2.2, if_pos (by decide), classRows_A_tW]; decide

/-- C4: the scenario resolver's output row keeps year, month_num, quarter and
all lag/rolling features equal to those of the latest record, whatever the
overrides; and resolving passes the engineered history table through
unchanged (the overrides are applied to a copy of the single record, and
`resolve` reads nothing but that record and the overrides). -/
theorem C4_resolver_frame (t : List EngRow) (c : String) (latest : EngRow) (ov : Overrides) :
    (resolveScenario t c ov).1 = t ∧
    (resolve latest ov).year = latest.year ∧
    (resolve latest ov).month_num = latest.month_num ∧
    (resolve latest ov).quarter = latest.quarter ∧
    (resolve latest ov).premium_lag1 = latest.premium_lag1 ∧
    (resolve latest ov).premium_lag2 = latest.premium_lag2 ∧
    (resolve latest ov).premium_lag3 = latest.premium_lag3 ∧
    (resolve latest ov).premium_roll_mean_3 = latest.premium_roll_mean_3 ∧
    (resolve latest ov).premium_roll_std_3 = latest.premium_roll_std_3 :=
  ⟨rfl, rfl, rfl, rfl, rfl, rfl, rfl, rfl, rfl⟩

/-- C5: in the builder, demand_supply_ratio is exactly 0 when the row's quota
is 0 and bids_received / quota otherwise, and success_rate is exactly 0 when
bids_received is 0 and bids_success / bids_received otherwise (no division
error, no NaN reaches the output); in the resolver both ratios are computed
from the final overridden values alone, never carried over from the latest
record. -/
theorem C5_ratio_rules (stdFn : List ℚ → ℚ) (rows : List CleanRow) (i : Nat)
    (hi : i < rows.length) (latest : EngRow) (ov : Overrides) :
    (((engineerClass stdFn rows).getD i default).quota = 0 →
        ((engineerClass stdFn rows).getD i default).demand_supply_ratio = 0) ∧
    (((engineerClass stdFn rows).getD i default).quota ≠ 0 →
        ((engineerClass stdFn rows).getD i default).demand_supply_ratio
          = ((engineerClass stdFn rows).getD i default).bids_received
              / ((engineerClass stdFn rows).getD i default).quota) ∧
    (((engineerClass stdFn rows).getD i default).bids_received = 0 →
        ((engineerClass stdFn rows).getD i default).success_rate = 0) ∧
    (((engineerClass stdFn rows).getD i default).bids_received ≠ 0 →
        ((engineerClass stdFn rows).getD i default).success_rate
          = ((engineerClass stdFn rows).getD i default).bids_success
              / ((engineerClass stdFn rows).getD i default).bids_received) ∧
    ((resolve latest ov).demand_supply_ratio
        = if ov.quota = 0 then 0 else ov.bids_received / ov.quota) ∧
    ((resolve latest ov).success_rate
        = if ov.bids_received = 0 then 0 else ov.bids_success / ov.bids_received) := by
  rw [engineerClass_getD _ _ _ hi]
  simp only [mkEng]
  refine ⟨?_, ?_, ?_, ?_, ?_, ?_⟩
  · intro h0; unfold naIfZero; rw [if_pos h0]; rfl
  · intro h0; unfold naIfZero; rw [if_neg h0]; rfl
  · intro h0; unfold naIfZero; rw [if_pos h0]; rfl
  · intro h0; unfold naIfZero; rw [if_neg h0]; rfl
  · by_cases h0 : ov.quota = 0 <;> simp [resolve, h0]
  · by_cases h0 : ov.bids_received = 0 <;> simp [resolve, h0]

theorem C5_ratio_rules_witness :
    0 < rows2.length ∧
    (resolve latestW ovW).demand_supply_ratio = 0 ∧
    (resolve latestW ovW).success_rate = 80 / 50 :=
  ⟨by decide,
   ((C5_ratio_rules stdFn0 rows2 0 (by decide) latestW ovW).2.2.2.2.1).trans (by simp [ovW]),
   ((C5_ratio_rules stdFn0 rows2 0 (by decide) latestW ovW).2.2.2.2.2).trans (by
      simp [ovW])⟩

/-- C6: whenever the overridden bids_success exceeds bids_received, the
scenario block emits the validation warning, and the predict button's guard
rejects the request: the outcome is `rejected` when clicked and is never
`predicted` while the violation holds. -/
theorem C6_validation_rejects (latest : EngRow) (ov : Overrides) (clicked : Bool)
    (h : ov.bids_success > ov.bids_received) :
    Warning.successExceedsReceived ∈ (scenarioStep latest ov clicked).warnings ∧
    (clicked = true → (scenarioStep latest ov clicked).outcome = PredictOutcome.rejected) ∧
    (∀ row, (scenarioStep latest ov clicked).outcome ≠ PredictOutcome.predicted row) := by
  unfold scenarioStep
  refine ⟨?_, ?_, ?_⟩
  · dsimp only
    rw [if_pos h]
    exact List.mem_append_left _ (List.mem_singleton_self _)
  · intro hc
    subst hc
    dsimp only
    rw [if_pos rfl, if_pos h]
  · intro row
    cases clicked <;> simp [h]

theorem C6_validation_rejects_witness :
    ovW.bids_success > ovW.bids_received ∧
    Warning.successExceedsReceived ∈ (scenarioStep latestW ovW true).warnings ∧
    (scenarioStep latestW ovW true).outcome = PredictOutcome.rejected :=
  ⟨by decide,
   (C6_validation_rejects latestW ovW true (by decide)).1,
   (C6_validation_rejects latestW ovW true (by decide)).2.1 rfl⟩

/-- C7: a row whose timestamp does not parse is dropped whole; a numeric cell
that does not parse after comma and whitespace stripping is defaulted to 0;
the cleaning step is a total function applied row by row (never fatal,
deterministic in its input). -/
theorem C7_parse_recovery (td : String → Option Ts) (tn : String → Option ℚ)
    (t : List RawRow) (r : RawRow) (s : String) :
    (td r.month = none → cleanRow td tn r = none) ∧
    (∀ ts, td r.month = some ts → cleanRow td tn r = some
      { month := ts
        bidding_no := coerceNum tn r.bidding_no
        vehicle_class := r.vehicle_class
        quota := coerceNum tn r.quota
        bids_received := coerceNum tn r.bids_received
        bids_success := coerceNum tn r.bids_success
        premium := coerceNum tn r.premium }) ∧
    (tn (stripNum s) = none → coerceNum tn s = 0) ∧
    cleanRows td tn t = t.filterMap (cleanRow td tn) := by
  refine ⟨?_, ?_, ?_, rfl⟩
  · intro h; simp [cleanRow, h]
  · intro ts h; simp [cleanRow, h]
  · intro h; simp [coerceNum, h]

theorem C7_parse_recovery_witness :
    tdW rW.month = none ∧
    cleanRow tdW tnW rW = none ∧
    tnW (stripNum rW.premium) = none ∧
    coerceNum tnW rW.premium = 0 ∧
    cleanRows tdW tnW [rW, rWgood] = [cwGood] :=
  ⟨by decide,
   (C7_parse_recovery tdW tnW [] rW rW.premium).1 (by decide),
   by decide,
   (C7_parse_recovery tdW tnW [] rW rW.premium).2.2.1 (by decide),
   by decide⟩

/-- C8: the row handed to the model consists of exactly the 15 expected
columns in source order — both for an arbitrary feature row and for the row
the scenario block builds and displays. -/
theorem C8_feature_order (r : FeatureRow) (latest : EngRow) (ov : Overrides) (clicked : Bool) :
    (rowEntries r).map Prod.fst = expected_cols ∧
    expected_cols.length = 15 ∧
    (rowEntries ((scenarioStep latest ov clicked).shownRow)).map Prod.fst = expected_cols :=
  ⟨rfl, rfl, rfl⟩

/-- C9: even while the overridden bids_success exceeds bids_received, the
scenario block still builds and displays the feature row, carrying the
unclamped bids_success (the resolver copies it through unchanged, first
conjunct, with no clamping anywhere); the violation blocks only the predict
action. -/
theorem C9_row_exposed_unclamped (latest : EngRow) (ov : Overrides) (clicked : Bool) :
    (resolve latest ov).bids_success = ov.bids_success ∧
    (ov.bids_success > ov.bids_received →
      (scenarioStep latest ov clicked).shownRow = resolve latest ov ∧
      (scenarioStep latest ov clicked).shownRow.bids_success = ov.bids_success ∧
      (scenarioStep latest ov clicked).outcome
        = if clicked then PredictOutcome.rejected else PredictOutcome.notRequested) := by
  refine ⟨rfl, fun h => ⟨rfl, rfl, ?_⟩⟩
  unfold scenarioStep
  cases clicked <;> simp [h]

theorem C9_row_exposed_unclamped_witness :
    ovW.bids_success > ovW.bids_received ∧
    (resolve latestW ovW).bids_success = 80 ∧
    (scenarioStep latestW ovW true).shownRow = resolve latestW ovW ∧
    (scenarioStep latestW ovW true).outcome = PredictOutcome.rejected := by
  have h := C9_row_exposed_unclamped latestW ovW true
  have hgt : ovW.bids_success > ovW.bids_received := by decide
  refine ⟨hgt, ?_, (h.2 hgt).1, ?_⟩
  · rw [h.1]; rfl
  · rw [(h.2 hgt).2.2]; rfl

/-- C10: bidding_no goes through exactly the same numeric coercion as the
quantity columns (it is listed in num_cols on line 39): commas and
surrounding whitespace are stripped and an unparseable value defaults to 0. -/
theorem C10_bidding_no_coerced (td : String → Option Ts) (tn : String → Option ℚ)
    (r : RawRow) (cr : CleanRow) (s : String) (h : cleanRow td tn r = some cr) :
    cr.bidding_no = coerceNum tn r.bidding_no ∧
    cr.bidding_no = (tn (stripNum r.bidding_no)).getD 0 ∧
    (tn (stripNum s) = none → coerceNum tn s = 0) := by
  unfold cleanRow at h
  rcases Option.map_eq_some'.mp h with ⟨ts, hts, hcr⟩
  subst hcr
  exact ⟨rfl, rfl, fun h0 => by simp [coerceNum, h0]⟩

theorem C10_bidding_no_coerced_witness :
    cleanRow tdW tnW rWgood = some cwGood ∧
    cwGood.bidding_no = coerceNum tnW rWgood.bidding_no ∧
    cwGood.bidding_no = 1234 :=
  ⟨by decide,
   (C10_bidding_no_coerced tdW tnW rWgood cwGood "x" (by decide)).1,
   by decide⟩
